import Mathlib

/-
Verification of the `radio` module (libs/radio/radio.ts): a shallow embedding
of its data model, its handler-registration functions and its property query,
together with theorems about them.
-/

namespace radio

/-- A MakeCode `Buffer` value, embedded as its list of bytes. -/
structure Buffer where
  data : List Nat
deriving DecidableEq, Repr

/-- The empty buffer, the zero-equivalent default for a buffer payload. -/
def Buffer.empty : Buffer := ⟨[]⟩

/-- The `Packet` class viewed as a total record of field values: number
payload, string payload, buffer payload, send time, sender serial and signal
strength. The source class declares these six fields with no initializers and
no constructor; the defaults written here are the zero-equivalents its field
documentation promises for unpopulated slots, giving a total value model for
the behavioral theorems (all of which are invariant to the default values).
The object construction the code actually performs — `new Packet()` leaving
every field `undefined` until assigned — is modelled faithfully by
`PacketObj` below. -/
structure Packet where
  receivedNumber : Int := 0
  receivedString : String := ""
  receivedBuffer : Buffer := Buffer.empty
  time : Int := 0
  serial : Int := 0
  signal : Int := 0
deriving DecidableEq, Repr

/-- `new Packet()`: a packet with every field at its default. -/
def Packet.new : Packet := {}

/-- The tuple of the six fields of a `Packet`, in declaration order. -/
def Packet.fields (p : Packet) : Int × String × Buffer × Int × Int × Int :=
  (p.receivedNumber, p.receivedString, p.receivedBuffer, p.time, p.serial, p.signal)

/-- The `PacketProperty` enum: `Time`, `SerialNumber`, `SignalStrength`. -/
inductive PacketProperty where
  | Time
  | SerialNumber
  | SignalStrength
deriving DecidableEq, Repr

/-- Numeric value of each `PacketProperty` case, per TypeScript enum
auto-numbering: `Time = 0`, `SerialNumber = 1`, `SignalStrength = 2`. -/
def PacketProperty.toInt : PacketProperty → Int
  | .Time => 0
  | .SerialNumber => 1
  | .SignalStrength => 2

/-- The module's process-wide mutable state: the slot
`let lastPacket: Packet`, absent (`none`) until a packet is received. -/
structure RadioState where
  lastPacket : Option Packet
deriving DecidableEq, Repr

/-- The values the native accessors return during one handler invocation,
after `receiveNumber()` has dequeued the packet. -/
structure NativeState where
  receivedNumber : Int
  receivedTime : Int
  receivedSerial : Int
  receivedString : String
  receivedBuffer : Buffer
  receivedSignalStrength : Int
deriving DecidableEq, Repr

/-- The native accessors a handler body may read. -/
inductive Accessor where
  | receivedNumber
  | receivedTime
  | receivedSerial
  | receivedString
  | receivedBuffer
  | receivedSignalStrength
deriving DecidableEq, Repr

/-- Observable events of one handler invocation: the `receiveNumber()`
dequeue call, a read of a native accessor, the assignment to `lastPacket`,
and the invocation of the user-supplied callback. -/
inductive Event where
  | receiveNumber
  | read (a : Accessor)
  | setLastPacket (p : Packet)
  | userCallback
deriving DecidableEq, Repr

/-- The packet built inside the closure registered by `onDataPacketReceived`,
with the field assignments in source order. -/
def onDataPacketReceivedPacket (ns : NativeState) : Packet :=
  let packet := Packet.new
  let packet := { packet with receivedNumber := ns.receivedNumber }
  let packet := { packet with time := ns.receivedTime }
  let packet := { packet with serial := ns.receivedSerial }
  let packet := { packet with receivedString := ns.receivedString }
  let packet := { packet with receivedBuffer := ns.receivedBuffer }
  let packet := { packet with signal := ns.receivedSignalStrength }
  packet

/-- One invocation of the closure registered by `onDataPacketReceived`:
the updated state after `lastPacket = packet`, and the argument passed
to the user callback (the packet itself). -/
def onDataPacketReceivedRun (s : RadioState) (ns : NativeState) : RadioState × Packet :=
  let packet := onDataPacketReceivedPacket ns
  ({ s with lastPacket := some packet }, packet)

/-- The event trace of one invocation of the closure registered by
`onDataPacketReceived`, in source statement order. -/
def onDataPacketReceivedTrace (ns : NativeState) : List Event :=
  [Event.receiveNumber,
   Event.read Accessor.receivedNumber,
   Event.read Accessor.receivedTime,
   Event.read Accessor.receivedSerial,
   Event.read Accessor.receivedString,
   Event.read Accessor.receivedBuffer,
   Event.read Accessor.receivedSignalStrength,
   Event.setLastPacket (onDataPacketReceivedPacket ns),
   Event.userCallback]

/-- The packet built inside the closure registered by `onReceivedNumber`,
with the field assignments in source order; the string and buffer payload
slots are never assigned. -/
def onReceivedNumberPacket (ns : NativeState) : Packet :=
  let packet := Packet.new
  let packet := { packet with time := ns.receivedTime }
  let packet := { packet with serial := ns.receivedSerial }
  let packet := { packet with signal := ns.receivedSignalStrength }
  let packet := { packet with receivedNumber := ns.receivedNumber }
  packet

/-- One invocation of the closure registered by `onReceivedNumber`:
the updated state and the argument passed to the user callback
(`packet.receivedNumber`). -/
def onReceivedNumberRun (s : RadioState) (ns : NativeState) : RadioState × Int :=
  let packet := onReceivedNumberPacket ns
  ({ s with lastPacket := some packet }, packet.receivedNumber)

/-- The event trace of one invocation of the closure registered by
`onReceivedNumber`. -/
def onReceivedNumberTrace (ns : NativeState) : List Event :=
  [Event.receiveNumber,
   Event.read Accessor.receivedTime,
   Event.read Accessor.receivedSerial,
   Event.read Accessor.receivedSignalStrength,
   Event.read Accessor.receivedNumber,
   Event.setLastPacket (onReceivedNumberPacket ns),
   Event.userCallback]

/-- The packet built inside the closure registered by `onReceivedValue`,
with the field assignments in source order; the buffer payload slot is
never assigned. -/
def onReceivedValuePacket (ns : NativeState) : Packet :=
  let packet := Packet.new
  let packet := { packet with time := ns.receivedTime }
  let packet := { packet with serial := ns.receivedSerial }
  let packet := { packet with signal := ns.receivedSignalStrength }
  let packet := { packet with receivedNumber := ns.receivedNumber }
  let packet := { packet with receivedString := ns.receivedString }
  packet

/-- One invocation of the closure registered by `onReceivedValue`:
the updated state and the pair passed to the user callback
(`packet.receivedString`, `packet.receivedNumber`). -/
def onReceivedValueRun (s : RadioState) (ns : NativeState) : RadioState × (String × Int) :=
  let packet := onReceivedValuePacket ns
  ({ s with lastPacket := some packet }, (packet.receivedString, packet.receivedNumber))

/-- The event trace of one invocation of the closure registered by
`onReceivedValue`. -/
def onReceivedValueTrace (ns : NativeState) : List Event :=
  [Event.receiveNumber,
   Event.read Accessor.receivedTime,
   Event.read Accessor.receivedSerial,
   Event.read Accessor.receivedSignalStrength,
   Event.read Accessor.receivedNumber,
   Event.read Accessor.receivedString,
   Event.setLastPacket (onReceivedValuePacket ns),
   Event.userCallback]

/-- The packet built inside the closure registered by `onReceivedString`,
with the field assignments in source order; the number and buffer payload
slots are never assigned. -/
def onReceivedStringPacket (ns : NativeState) : Packet :=
  let packet := Packet.new
  let packet := { packet with time := ns.receivedTime }
  let packet := { packet with serial := ns.receivedSerial }
  let packet := { packet with signal := ns.receivedSignalStrength }
  let packet := { packet with receivedString := ns.receivedString }
  packet

/-- One invocation of the closure registered by `onReceivedString`:
the updated state and the argument passed to the user callback
(`packet.receivedString`). -/
def onReceivedStringRun (s : RadioState) (ns : NativeState) : RadioState × String :=
  let packet := onReceivedStringPacket ns
  ({ s with lastPacket := some packet }, packet.receivedString)

/-- The event trace of one invocation of the closure registered by
`onReceivedString`. -/
def onReceivedStringTrace (ns : NativeState) : List Event :=
  [Event.receiveNumber,
   Event.read Accessor.receivedTime,
   Event.read Accessor.receivedSerial,
   Event.read Accessor.receivedSignalStrength,
   Event.read Accessor.receivedString,
   Event.setLastPacket (onReceivedStringPacket ns),
   Event.userCallback]

/-- The packet built inside the closure registered by `onReceivedBuffer`,
with the field assignments in source order; the number and string payload
slots are never assigned. -/
def onReceivedBufferPacket (ns : NativeState) : Packet :=
  let packet := Packet.new
  let packet := { packet with time := ns.receivedTime }
  let packet := { packet with serial := ns.receivedSerial }
  let packet := { packet with signal := ns.receivedSignalStrength }
  let packet := { packet with receivedBuffer := ns.receivedBuffer }
  packet

/-- One invocation of the closure registered by `onReceivedBuffer`:
the updated state and the argument passed to the user callback
(`packet.receivedBuffer`). -/
def onReceivedBufferRun (s : RadioState) (ns : NativeState) : RadioState × Buffer :=
  let packet := onReceivedBufferPacket ns
  ({ s with lastPacket := some packet }, packet.receivedBuffer)

/-- The event trace of one invocation of the closure registered by
`onReceivedBuffer`. -/
def onReceivedBufferTrace (ns : NativeState) : List Event :=
  [Event.receiveNumber,
   Event.read Accessor.receivedTime,
   Event.read Accessor.receivedSerial,
   Event.read Accessor.receivedSignalStrength,
   Event.read Accessor.receivedBuffer,
   Event.setLastPacket (onReceivedBufferPacket ns),
   Event.userCallback]

/-- `getReceivedPacketProperty(type)`: a presence check on `lastPacket`,
then a switch of the numeric `type` against the three enum values; every
fall-through path returns 0. -/
def getReceivedPacketProperty (s : RadioState) (type : Int) : Int :=
  match s.lastPacket with
  | some lastPacket =>
      if type = PacketProperty.Time.toInt then lastPacket.time
      else if type = PacketProperty.SerialNumber.toInt then lastPacket.serial
      else if type = PacketProperty.SignalStrength.toInt then lastPacket.signal
      else 0
  | none => 0

/-- `_packetProperty(type)`: `return type`, the enum value as a number. -/
def _packetProperty (type : PacketProperty) : Int :=
  PacketProperty.toInt type

/-- The stored-then-notified shape of a trace: some position stores packet
`p` into the slot, and a strictly later position invokes the user callback. -/
def storesBeforeCallback (tr : List Event) (p : Packet) : Prop :=
  ∃ i j : Nat, i < j ∧ tr[i]? = some (Event.setLastPacket p) ∧ tr[j]? = some Event.userCallback

/-- Whether an event is the `receiveNumber()` dequeue call. -/
def isReceiveNumber : Event → Bool
  | Event.receiveNumber => true
  | _ => false

/-- How many times a trace calls `receiveNumber()`. -/
def countReceiveNumber (tr : List Event) : Nat :=
  tr.countP isReceiveNumber

/-- A class field value as TypeScript leaves it: `undefined` until the code
assigns a value to the field. -/
inductive FieldVal (α : Type) where
  | undefined
  | assigned (a : α)
deriving DecidableEq, Repr

/-- The `Packet` object as the source class actually creates it: the class
body declares the six fields with no initializers and defines no
constructor, so each field of `new Packet()` starts `undefined` and holds a
value only once a handler assigns one. -/
structure PacketObj where
  receivedNumber : FieldVal Int := FieldVal.undefined
  receivedString : FieldVal String := FieldVal.undefined
  receivedBuffer : FieldVal Buffer := FieldVal.undefined
  time : FieldVal Int := FieldVal.undefined
  serial : FieldVal Int := FieldVal.undefined
  signal : FieldVal Int := FieldVal.undefined
deriving DecidableEq, Repr

/-- `new Packet()` over the faithful object model: every field `undefined`. -/
def PacketObj.new : PacketObj := {}

/-- The object built inside the closure registered by `onDataPacketReceived`,
recording exactly the fields the source assigns, in source order. -/
def onDataPacketReceivedPacketObj (ns : NativeState) : PacketObj :=
  let packet := PacketObj.new
  let packet := { packet with receivedNumber := FieldVal.assigned ns.receivedNumber }
  let packet := { packet with time := FieldVal.assigned ns.receivedTime }
  let packet := { packet with serial := FieldVal.assigned ns.receivedSerial }
  let packet := { packet with receivedString := FieldVal.assigned ns.receivedString }
  let packet := { packet with receivedBuffer := FieldVal.assigned ns.receivedBuffer }
  let packet := { packet with signal := FieldVal.assigned ns.receivedSignalStrength }
  packet

/-- The object built inside the closure registered by `onReceivedNumber`,
recording exactly the fields the source assigns, in source order; the string
and buffer payload fields are never assigned. -/
def onReceivedNumberPacketObj (ns : NativeState) : PacketObj :=
  let packet := PacketObj.new
  let packet := { packet with time := FieldVal.assigned ns.receivedTime }
  let packet := { packet with serial := FieldVal.assigned ns.receivedSerial }
  let packet := { packet with signal := FieldVal.assigned ns.receivedSignalStrength }
  let packet := { packet with receivedNumber := FieldVal.assigned ns.receivedNumber }
  packet

/-- The object built inside the closure registered by `onReceivedValue`,
recording exactly the fields the source assigns, in source order; the buffer
payload field is never assigned. -/
def onReceivedValuePacketObj (ns : NativeState) : PacketObj :=
  let packet := PacketObj.new
  let packet := { packet with time := FieldVal.assigned ns.receivedTime }
  let packet := { packet with serial := FieldVal.assigned ns.receivedSerial }
  let packet := { packet with signal := FieldVal.assigned ns.receivedSignalStrength }
  let packet := { packet with receivedNumber := FieldVal.assigned ns.receivedNumber }
  let packet := { packet with receivedString := FieldVal.assigned ns.receivedString }
  packet

/-- The object built inside the closure registered by `onReceivedString`,
recording exactly the fields the source assigns, in source order; the number
and buffer payload fields are never assigned. -/
def onReceivedStringPacketObj (ns : NativeState) : PacketObj :=
  let packet := PacketObj.new
  let packet := { packet with time := FieldVal.assigned ns.receivedTime }
  let packet := { packet with serial := FieldVal.assigned ns.receivedSerial }
  let packet := { packet with signal := FieldVal.assigned ns.receivedSignalStrength }
  let packet := { packet with receivedString := FieldVal.assigned ns.receivedString }
  packet

/-- The object built inside the closure registered by `onReceivedBuffer`,
recording exactly the fields the source assigns, in source order; the number
and string payload fields are never assigned. -/
def onReceivedBufferPacketObj (ns : NativeState) : PacketObj :=
  let packet := PacketObj.new
  let packet := { packet with time := FieldVal.assigned ns.receivedTime }
  let packet := { packet with serial := FieldVal.assigned ns.receivedSerial }
  let packet := { packet with signal := FieldVal.assigned ns.receivedSignalStrength }
  let packet := { packet with receivedBuffer := FieldVal.assigned ns.receivedBuffer }
  packet

/-- In a trace whose first event is the single `receiveNumber()` call, every
`receiveNumber` position strictly precedes every accessor-read position. -/
theorem receive_first_of_head_count (tr : List Event)
    (hhead : tr[0]? = some Event.receiveNumber)
    (hcount : countReceiveNumber tr = 1) :
    ∀ i j : Nat, ∀ a, tr[i]? = some Event.receiveNumber →
      tr[j]? = some (Event.read a) → i < j := by
  intro i j a hi hj
  cases tr with
  | nil => simp at hhead
  | cons x rest =>
    rw [List.getElem?_cons_zero] at hhead
    injection hhead with hx
    subst hx
    have hzero : ∀ e ∈ rest, ¬ isReceiveNumber e = true := by
      rw [← List.countP_eq_zero]
      have h1 := hcount
      simp only [countReceiveNumber, List.countP_cons, isReceiveNumber, if_true] at h1
      omega
    have hnone : ∀ k : Nat, rest[k]? ≠ some Event.receiveNumber := by
      intro k hk
      have hmem : Event.receiveNumber ∈ rest := List.getElem?_mem hk
      have hfalse := hzero _ hmem
      simp [isReceiveNumber] at hfalse
    cases i with
    | zero =>
      cases j with
      | zero =>
        rw [List.getElem?_cons_zero] at hj
        injection hj with hj
        exact absurd hj (by simp)
      | succ j => exact Nat.succ_pos j
    | succ i =>
      rw [List.getElem?_cons_succ] at hi
      exact absurd hi (hnone i)

/-- C1: when no packet has been received yet (the last-received slot is
absent), `getReceivedPacketProperty` returns 0 for every value of `type`. -/
theorem C1_absent_slot_returns_zero (type : Int) :
    getReceivedPacketProperty { lastPacket := none } type = 0 := rfl

/-- C2: when the last-received slot holds a packet, `getReceivedPacketProperty`
returns its `time` field for `PacketProperty.Time`, its `serial` field for
`PacketProperty.SerialNumber`, and its `signal` field for
`PacketProperty.SignalStrength`. -/
theorem C2_populated_slot_projects_fields (p : Packet) :
    getReceivedPacketProperty { lastPacket := some p } PacketProperty.Time.toInt = p.time ∧
    getReceivedPacketProperty { lastPacket := some p } PacketProperty.SerialNumber.toInt = p.serial ∧
    getReceivedPacketProperty { lastPacket := some p } PacketProperty.SignalStrength.toInt = p.signal :=
  ⟨rfl, rfl, rfl⟩

/-- C3: for each of the five registration functions, one invocation of the
registered handler leaves the slot holding exactly the newly built record,
and in its event trace the store to the slot strictly precedes the
user-callback invocation, so the slot already holds the new record when the
user callback runs. -/
theorem C3_slot_holds_new_record_before_callback (s : RadioState) (ns : NativeState) :
    ((onDataPacketReceivedRun s ns).1.lastPacket = some (onDataPacketReceivedPacket ns) ∧
      storesBeforeCallback (onDataPacketReceivedTrace ns) (onDataPacketReceivedPacket ns)) ∧
    ((onReceivedNumberRun s ns).1.lastPacket = some (onReceivedNumberPacket ns) ∧
      storesBeforeCallback (onReceivedNumberTrace ns) (onReceivedNumberPacket ns)) ∧
    ((onReceivedValueRun s ns).1.lastPacket = some (onReceivedValuePacket ns) ∧
      storesBeforeCallback (onReceivedValueTrace ns) (onReceivedValuePacket ns)) ∧
    ((onReceivedStringRun s ns).1.lastPacket = some (onReceivedStringPacket ns) ∧
      storesBeforeCallback (onReceivedStringTrace ns) (onReceivedStringPacket ns)) ∧
    ((onReceivedBufferRun s ns).1.lastPacket = some (onReceivedBufferPacket ns) ∧
      storesBeforeCallback (onReceivedBufferTrace ns) (onReceivedBufferPacket ns)) :=
  ⟨⟨rfl, 7, 8, by omega, rfl, rfl⟩,
   ⟨rfl, 5, 6, by omega, rfl, rfl⟩,
   ⟨rfl, 6, 7, by omega, rfl, rfl⟩,
   ⟨rfl, 5, 6, by omega, rfl, rfl⟩,
   ⟨rfl, 5, 6, by omega, rfl, rfl⟩⟩

/-- C4: the claim's zero-equivalent defaults are what the `Packet` class
documentation promises but not what the code computes. In the object the
code actually builds, the payload fields a variant handler does not assign
remain `undefined` — never the documented empty string, empty buffer or 0:
`onReceivedNumber` leaves the string and buffer payloads `undefined`,
`onReceivedString` leaves the number and buffer payloads `undefined`,
`onReceivedValue` leaves the buffer payload `undefined`, and
`onReceivedBuffer` leaves the number and string payloads `undefined`,
because the class has no field initializers and these handlers never touch
those fields. -/
theorem C4_unassigned_payload_slots_are_undefined (ns : NativeState) :
    ((onReceivedNumberPacketObj ns).receivedString = FieldVal.undefined ∧
      (onReceivedNumberPacketObj ns).receivedString ≠ FieldVal.assigned "" ∧
      (onReceivedNumberPacketObj ns).receivedBuffer = FieldVal.undefined ∧
      (onReceivedNumberPacketObj ns).receivedBuffer ≠ FieldVal.assigned Buffer.empty) ∧
    ((onReceivedStringPacketObj ns).receivedNumber = FieldVal.undefined ∧
      (onReceivedStringPacketObj ns).receivedNumber ≠ FieldVal.assigned 0 ∧
      (onReceivedStringPacketObj ns).receivedBuffer = FieldVal.undefined ∧
      (onReceivedStringPacketObj ns).receivedBuffer ≠ FieldVal.assigned Buffer.empty) ∧
    ((onReceivedValuePacketObj ns).receivedBuffer = FieldVal.undefined) ∧
    ((onReceivedBufferPacketObj ns).receivedNumber = FieldVal.undefined ∧
      (onReceivedBufferPacketObj ns).receivedString = FieldVal.undefined) :=
  ⟨⟨rfl, fun h => FieldVal.noConfusion h, rfl, fun h => FieldVal.noConfusion h⟩,
   ⟨rfl, fun h => FieldVal.noConfusion h, rfl, fun h => FieldVal.noConfusion h⟩,
   rfl, rfl, rfl⟩

/-- C5: each handler passes the native accessor values to the user callback
unmodified: `onReceivedNumber` passes `receivedNumber()`, `onReceivedString`
passes `receivedString()`, `onReceivedValue` passes the pair
(`receivedString()`, `receivedNumber()`), and `onReceivedBuffer` passes
`receivedBuffer()`. -/
theorem C5_callback_gets_native_values (s : RadioState) (ns : NativeState) :
    (onReceivedNumberRun s ns).2 = ns.receivedNumber ∧
    (onReceivedStringRun s ns).2 = ns.receivedString ∧
    (onReceivedValueRun s ns).2 = (ns.receivedString, ns.receivedNumber) ∧
    (onReceivedBufferRun s ns).2 = ns.receivedBuffer :=
  ⟨rfl, rfl, rfl, rfl⟩

/-- C6: the exposed record type has exactly six fields: the map sending a
`Packet` to the tuple of its number payload, string payload, buffer payload,
time, serial and signal is a bijection. -/
theorem C6_packet_is_exactly_six_fields : Function.Bijective Packet.fields := by
  constructor
  · intro p q h
    cases p
    cases q
    simp only [Packet.fields, Prod.mk.injEq] at h
    obtain ⟨h1, h2, h3, h4, h5, h6⟩ := h
    simp_all
  · intro x
    obtain ⟨n, str, buf, t, sr, sg⟩ := x
    exact ⟨{ receivedNumber := n, receivedString := str, receivedBuffer := buf,
             time := t, serial := sr, signal := sg }, rfl⟩

/-- C7: for every numeric `type` that is none of the three enum values,
`getReceivedPacketProperty` returns 0 in every state, populated or not. -/
theorem C7_unknown_type_returns_zero (s : RadioState) (type : Int)
    (ht : type ≠ PacketProperty.Time.toInt)
    (hsn : type ≠ PacketProperty.SerialNumber.toInt)
    (hss : type ≠ PacketProperty.SignalStrength.toInt) :
    getReceivedPacketProperty s type = 0 := by
  unfold getReceivedPacketProperty
  cases s.lastPacket with
  | none => rfl
  | some p => simp [ht, hsn, hss]

/-- Witness for C7: at `type = 5` with a populated slot, the result is 0. -/
theorem C7_unknown_type_returns_zero_witness :
    (5 : Int) ≠ PacketProperty.Time.toInt ∧
    (5 : Int) ≠ PacketProperty.SerialNumber.toInt ∧
    (5 : Int) ≠ PacketProperty.SignalStrength.toInt ∧
    getReceivedPacketProperty { lastPacket := some { time := 11, serial := 22, signal := 33 } } 5 = 0 :=
  ⟨by decide, by decide, by decide,
   C7_unknown_type_returns_zero
     { lastPacket := some { time := 11, serial := 22, signal := 33 } } 5
     (by decide) (by decide) (by decide)⟩

/-- C8: `_packetProperty` returns its argument unchanged: for every
`PacketProperty` value, the returned number is exactly the numeric value of
that enum case. -/
theorem C8_packetProperty_is_identity (type : PacketProperty) :
    _packetProperty type = PacketProperty.toInt type := rfl

/-- C9: for each of the five registration functions, one invocation of the
registered handler calls `receiveNumber()` exactly once, and that call
strictly precedes every read of a native accessor in the event trace. -/
theorem C9_receiveNumber_once_before_reads (ns : NativeState) :
    (countReceiveNumber (onDataPacketReceivedTrace ns) = 1 ∧
      ∀ i j : Nat, ∀ a, (onDataPacketReceivedTrace ns)[i]? = some Event.receiveNumber →
        (onDataPacketReceivedTrace ns)[j]? = some (Event.read a) → i < j) ∧
    (countReceiveNumber (onReceivedNumberTrace ns) = 1 ∧
      ∀ i j : Nat, ∀ a, (onReceivedNumberTrace ns)[i]? = some Event.receiveNumber →
        (onReceivedNumberTrace ns)[j]? = some (Event.read a) → i < j) ∧
    (countReceiveNumber (onReceivedValueTrace ns) = 1 ∧
      ∀ i j : Nat, ∀ a, (onReceivedValueTrace ns)[i]? = some Event.receiveNumber →
        (onReceivedValueTrace ns)[j]? = some (Event.read a) → i < j) ∧
    (countReceiveNumber (onReceivedStringTrace ns) = 1 ∧
      ∀ i j : Nat, ∀ a, (onReceivedStringTrace ns)[i]? = some Event.receiveNumber →
        (onReceivedStringTrace ns)[j]? = some (Event.read a) → i < j) ∧
    (countReceiveNumber (onReceivedBufferTrace ns) = 1 ∧
      ∀ i j : Nat, ∀ a, (onReceivedBufferTrace ns)[i]? = some Event.receiveNumber →
        (onReceivedBufferTrace ns)[j]? = some (Event.read a) → i < j) :=
  ⟨⟨rfl, receive_first_of_head_count _ rfl rfl⟩,
   ⟨rfl, receive_first_of_head_count _ rfl rfl⟩,
   ⟨rfl, receive_first_of_head_count _ rfl rfl⟩,
   ⟨rfl, receive_first_of_head_count _ rfl rfl⟩,
   ⟨rfl, receive_first_of_head_count _ rfl rfl⟩⟩

end radio
